import Mathlib

set_option autoImplicit false

namespace NanoBanana

/-! Shallow embedding of the generation-batch orchestration core of the
personal-nano-banana repository: the per-image `GenerationService`
(`referenceImages.ts`, second module: `startGeneration`, `pollForCompletion`,
`handleJobSuccess`, `handleJobFailure`, `checkBatchCompletion`,
`getBatchProgress`, `cancelGeneration`), the batch persistence operation
`updateBatchStatus` (`database.ts` lines 115-121), and the reference-image
cache (`referenceImages.ts`, first module: `isReplicateUploadValid`,
`processReferenceImage`).

Machine timestamps (JS `Date` values) are modelled as integer milliseconds.
External collaborators (the Replicate prediction client, the image-ingestion
service and the blob upload endpoint) are passed in as oracles describing the
outcome of each call, mirroring the `await`ed calls in the source. -/

/-- Status values a batch row can hold (`database.ts`, the CHECK constraint on
`batches.status`). -/
inductive BatchStatus
  | pending
  | processing
  | completed
  | failed
deriving DecidableEq

/-- Status values the generation service observes from the prediction client
and writes into prediction-job rows (the `GenerationResult.status` union in
`replicate.ts`). -/
inductive PredStatus
  | starting
  | processing
  | succeeded
  | failed
  | canceled
  | aborted
deriving DecidableEq

/-- A row of the `batches` table, restricted to the fields the orchestration
core reads and writes. -/
structure BatchRow where
  prompt : String
  batch_size : Nat
  status : BatchStatus
  completed_at : Option Int
  error_message : Option String
deriving DecidableEq

/-- The `batches` table: rows keyed by batch id. -/
abbrev BatchTable := List (Nat × BatchRow)

/-- `database.ts` `getBatch`: SELECT by primary key. -/
def getBatch (db : BatchTable) (id : Nat) : Option BatchRow :=
  (db.find? (fun p => p.1 == id)).map (fun p => p.2)

/-- `database.ts` lines 115-121, the per-row effect of `updateBatchStatus`:
`completed_at` is the current time when the new status is `completed` and NULL
otherwise, and `errorMessage || null` maps both an omitted and an empty
message to NULL (JS falsiness). -/
def updateBatchRow (now : Int) (status : BatchStatus) (errorMessage : Option String)
    (b : BatchRow) : BatchRow :=
  { b with
    status := status
    completed_at := if status = BatchStatus.completed then some now else none
    error_message :=
      match errorMessage with
      | none => none
      | some s => if s = "" then none else some s }

/-- `database.ts` lines 115-121, `updateBatchStatus`: UPDATE of the row whose
id matches; rows with other ids are untouched. -/
def updateBatchStatus (db : BatchTable) (id : Nat) (now : Int) (status : BatchStatus)
    (errorMessage : Option String) : BatchTable :=
  db.map (fun p => if p.1 == id then (p.1, updateBatchRow now status errorMessage p.2) else p)

/-- A row of the prediction-jobs table: one tracked per-image job. -/
structure PredJob where
  predictionId : String
  batchId : Nat
  imageIndex : Nat
  status : PredStatus
  error : Option String
deriving DecidableEq

abbrev JobTable := List PredJob

/-- Modelled from the spec: `createPredictionJob`, the persistence helper the
service calls at `referenceImages.ts` line 377, is absent from the sources;
spec section 4.2 has it persist a job record with status `starting` for the
given batch id and image index. -/
def createPredictionJob (jobs : JobTable) (batchId : Nat) (predictionId : String)
    (imageIndex : Nat) : JobTable :=
  jobs ++ [⟨predictionId, batchId, imageIndex, PredStatus.starting, none⟩]

/-- Modelled from the spec: `updatePredictionJobStatus`, the persistence helper
called at `referenceImages.ts` lines 425 and 532, is absent from the sources;
it records the given status (and optional error) on the rows of the given
prediction id. -/
def updatePredictionJobStatus (jobs : JobTable) (predictionId : String)
    (status : PredStatus) (error : Option String) : JobTable :=
  jobs.map (fun j =>
    if j.predictionId == predictionId then { j with status := status, error := error } else j)

/-- Count of a batch's job rows holding one given status. -/
def countStatus (jobs : JobTable) (batchId : Nat) (s : PredStatus) : Nat :=
  (jobs.filter (fun j => j.batchId == batchId && j.status == s)).length

/-- The six status values a job row can hold. -/
def allPredStatuses : List PredStatus :=
  [PredStatus.starting, PredStatus.processing, PredStatus.succeeded,
   PredStatus.failed, PredStatus.canceled, PredStatus.aborted]

/-- Modelled from the spec: `getBatchJobProgress`, the persistence query called
at `referenceImages.ts` line 496, is absent from the sources; spec section 6
implies a grouping of the batch's job rows by status, one `(status, count)`
row per status. -/
def getBatchJobProgress (jobs : JobTable) (batchId : Nat) : List (PredStatus × Nat) :=
  allPredStatuses.map (fun s => (s, countStatus jobs batchId s))

/-- The per-batch progress record of `referenceImages.ts` lines 325-331. -/
structure BatchProgress where
  batchId : Nat
  totalImages : Nat
  completed : Nat
  failed : Nat
  processing : Nat
deriving DecidableEq

/-- `referenceImages.ts` lines 495-519, `getBatchProgress`: folds the grouped
job rows, counting `succeeded` as completed, `failed` and `canceled` as
failed, and every other status (including `aborted`) as processing. -/
def getBatchProgress (jobs : JobTable) (batchId : Nat) : BatchProgress :=
  (getBatchJobProgress jobs batchId).foldl
    (fun p row =>
      let count := row.2
      let p' := { p with totalImages := p.totalImages + count }
      if row.1 = PredStatus.succeeded then
        { p' with completed := p'.completed + count }
      else if row.1 = PredStatus.failed ∨ row.1 = PredStatus.canceled then
        { p' with failed := p'.failed + count }
      else
        { p' with processing := p'.processing + count })
    ⟨batchId, 0, 0, 0, 0⟩

/-- `referenceImages.ts` lines 477-493, `checkBatchCompletion`: when no job of
the batch counts as processing, the batch becomes `completed` if at least one
job succeeded and otherwise `failed` with the message
"All image generations failed"; no change otherwise. -/
def checkBatchCompletion (jobs : JobTable) (batchId : Nat) (now : Int)
    (db : BatchTable) : BatchTable :=
  let progress := getBatchProgress jobs batchId
  if progress.processing = 0 then
    if progress.completed > 0 then
      updateBatchStatus db batchId now BatchStatus.completed none
    else
      updateBatchStatus db batchId now BatchStatus.failed
        (some "All image generations failed")
  else db

/-- The statuses the poll loop itself treats as terminal (`referenceImages.ts`
lines 427-433: `succeeded` breaks through the success handler, `failed`,
`canceled` and `aborted` break through the failure handler). -/
def isPollTerminal (s : PredStatus) : Bool :=
  s == PredStatus.succeeded || s == PredStatus.failed ||
  s == PredStatus.canceled || s == PredStatus.aborted

/-- The statuses the aggregator counts as done (`referenceImages.ts` lines
509-515): `succeeded`, `failed` and `canceled`; everything else, `aborted`
included, lands in the processing bucket. -/
def isAggTerminal (s : PredStatus) : Bool :=
  s == PredStatus.succeeded || s == PredStatus.failed || s == PredStatus.canceled

/-- An entry of the service's in-memory `activeJobs` map (`referenceImages.ts`
lines 318-323): the tracked job for one prediction id. -/
structure GenJob where
  batchId : Nat
  predictionId : String
  imageIndex : Nat
  startTime : Int
deriving DecidableEq

/-- The mutable state the generation service touches: the two persistence
tables, the in-memory active-job map (association list keyed by prediction
id, JS `Map` insertion order), and the generated-image rows the ingestion
collaborator appends on success. -/
structure GenState where
  batches : BatchTable
  jobs : JobTable
  activeJobs : List (String × GenJob)
  images : List (Nat × String)
deriving DecidableEq

/-- JS `Map.set`: replace the value under an existing key, else append. -/
def mapSet (m : List (String × GenJob)) (k : String) (v : GenJob) :
    List (String × GenJob) :=
  if m.any (fun p => p.1 == k) then m.map (fun p => if p.1 == k then (k, v) else p)
  else m ++ [(k, v)]

/-- JS `Map.delete`. -/
def mapDelete (m : List (String × GenJob)) (k : String) : List (String × GenJob) :=
  m.filter (fun p => p.1 != k)

/-- JS `Map.get`. -/
def lookupActive (m : List (String × GenJob)) (k : String) : Option GenJob :=
  (m.find? (fun p => p.1 == k)).map (fun p => p.2)

/-- The precondition error thrown at `referenceImages.ts` line 353. -/
def startNotFoundMsg (batchId : Nat) : String :=
  "Batch " ++ toString batchId ++ " not found"

/-- The precondition error thrown at `referenceImages.ts` line 357. -/
def startNotPendingMsg (batchId : Nat) : String :=
  "Batch " ++ toString batchId ++ " is not in pending state"

/-- The message of whichever `startGeneration` precondition fails first:
absence beats wrong status, matching the order of the two throws. -/
def startTriggerMsg (db : BatchTable) (batchId : Nat) : String :=
  match getBatch db batchId with
  | none => startNotFoundMsg batchId
  | some _ => startNotPendingMsg batchId

/-- The value carried out of the fan-out loop by a thrown submit error: the
message, the state at the throw, and the prediction ids created so far (the
local `jobs` array, used by the catch block's cleanup). -/
structure TryErr where
  msg : String
  s : GenState
  created : List String
deriving DecidableEq

/-- `referenceImages.ts` lines 369-390, the fan-out loop of `startGeneration`:
for each image index submit one job through the prediction client (the
`submit` oracle gives each call's outcome), persist a job record, and register
the active job. A submit failure is thrown out of the loop at once, so the
remaining indices are never submitted. The first argument counts the
remaining iterations. -/
def fanoutLoop (submit : Nat → Except String String) (batchId : Nat) (now : Int) :
    Nat → Nat → GenState → List String → Except TryErr (GenState × List String)
  | 0, _, s, created => Except.ok (s, created)
  | Nat.succ m, i, s, created =>
    match submit i with
    | Except.error e => Except.error ⟨e, s, created⟩
    | Except.ok pid =>
      fanoutLoop submit batchId now m (i + 1)
        { s with
          jobs := createPredictionJob s.jobs batchId pid i
          activeJobs := mapSet s.activeJobs pid ⟨batchId, pid, i, now⟩ }
        (created ++ [pid])

/-- `referenceImages.ts` lines 348-406, `startGeneration`: check the batch
exists and is `pending`, move it to `processing`, fan out one job per image
index, and return the prediction ids whose poll loops are then started (the
`forEach` at lines 393-395). Any thrown error lands in the catch block, which
sets the batch to `failed` with the error's message and removes the created
jobs from the active map; no poll loop is started on that path. Reference
image URL resolution (line 364) only reads the store and is absorbed into the
submit oracle. -/
def startGeneration (submit : Nat → Except String String) (batchId : Nat) (now : Int)
    (s : GenState) : Except String Unit × GenState × List String :=
  match getBatch s.batches batchId with
  | none =>
    (Except.error (startNotFoundMsg batchId),
     { s with batches := (updateBatchStatus s.batches batchId now BatchStatus.failed
         (some (startNotFoundMsg batchId))) },
     [])
  | some batch =>
    if batch.status ≠ BatchStatus.pending then
      (Except.error (startNotPendingMsg batchId),
       { s with batches := (updateBatchStatus s.batches batchId now BatchStatus.failed
           (some (startNotPendingMsg batchId))) },
       [])
    else
      let s1 := { s with batches := updateBatchStatus s.batches batchId now BatchStatus.processing none }
      match fanoutLoop submit batchId now batch.batch_size 0 s1 [] with
      | Except.ok (s2, created) => (Except.ok (), s2, created)
      | Except.error err =>
        (Except.error err.msg,
         { err.s with
           batches := (updateBatchStatus err.s.batches batchId now BatchStatus.failed
             (some err.msg))
           activeJobs := err.created.foldl (fun m pid => mapDelete m pid) err.s.activeJobs },
         [])

/-- One status response from the prediction client (`replicate.ts`
`GenerationResult`, single-output variant). -/
structure GenResult where
  status : PredStatus
  output : Option String
  error : Option String
deriving DecidableEq

/-- JS `a || b` on an optional string: an absent or empty value falls back. -/
def orElseStr (o : Option String) (d : String) : String :=
  match o with
  | none => d
  | some s => if s = "" then d else s

/-- `referenceImages.ts` lines 473-475, `handleJobFailure`: logs the failure to
the console and performs no state update at all — in particular it does not
write any status to the job's row. -/
def handleJobFailure (s : GenState) (errorMessage : String) : GenState :=
  s

/-- `referenceImages.ts` lines 457-471, `handleJobSuccess`: an empty URL throws
inside the local try, any ingestion failure from `processGeneratedImages` is
caught the same way, and both fall through to `handleJobFailure`; on ingestion
success the stored image row is appended. The `ingest` oracle gives the
outcome of the awaited `processGeneratedImages` call. -/
def handleJobSuccess (ingest : String → Except String Unit) (job : GenJob)
    (imageUrl : String) (s : GenState) : GenState :=
  if imageUrl = "" then
    handleJobFailure s "No valid image URL found in output"
  else
    match ingest imageUrl with
    | Except.ok _ => { s with images := s.images ++ [(job.batchId, imageUrl)] }
    | Except.error e => handleJobFailure s e

/-- `referenceImages.ts` line 409: five minutes, in milliseconds. -/
def maxWaitTime : Nat := 300000

/-- `referenceImages.ts` line 410: three seconds, in milliseconds. -/
def pollInterval : Nat := 3000

/-- Number of poll iterations the budget admits: the while condition
`Date.now() - startTime < maxWaitTime` holds for elapsed times
0, pollInterval, 2*pollInterval, ... strictly below maxWaitTime, the clock
advancing by one poll interval per sleep. -/
def numPolls : Nat := maxWaitTime / pollInterval

/-- `referenceImages.ts` lines 420-440, the poll while-loop: each iteration
reads the prediction status (`statusAt i` is the i-th response), records it on
the job row, then breaks through the success or failure handler on a terminal
status and sleeps-and-continues on `starting` or `processing`. The first
argument is the remaining iteration budget; the returned flag is true when the
budget ran out with no terminal status observed. -/
def pollIter (statusAt : Nat → GenResult) (ingest : String → Except String Unit)
    (job : GenJob) : Nat → Nat → GenState → GenState × Bool
  | 0, _, s => (s, true)
  | Nat.succ fuel, i, s =>
    let result := statusAt i
    let s1 := { s with
      jobs := updatePredictionJobStatus s.jobs job.predictionId result.status result.error }
    if result.status = PredStatus.succeeded then
      (handleJobSuccess ingest job (orElseStr result.output "") s1, false)
    else if result.status = PredStatus.failed ∨ result.status = PredStatus.canceled ∨
        result.status = PredStatus.aborted then
      (handleJobFailure s1 (orElseStr result.error "Generation failed"), false)
    else
      pollIter statusAt ingest job fuel (i + 1) s1

/-- `referenceImages.ts` lines 408-455, `pollForCompletion`: an unknown
prediction id returns at once; otherwise the poll loop runs, budget
exhaustion goes through `handleJobFailure` with "Generation timed out", and
the finally block removes the job from the active map and invokes
`checkBatchCompletion` on the owning batch. -/
def pollForCompletion (statusAt : Nat → GenResult) (ingest : String → Except String Unit)
    (predictionId : String) (now : Int) (s : GenState) : GenState :=
  match lookupActive s.activeJobs predictionId with
  | none => s
  | some job =>
    let r := pollIter statusAt ingest job numPolls 0 s
    let s2 := if r.2 then handleJobFailure r.1 "Generation timed out" else r.1
    let s3 := { s2 with activeJobs := mapDelete s2.activeJobs predictionId }
    { s3 with batches := checkBatchCompletion s3.jobs job.batchId now s3.batches }

/-- The error thrown at `referenceImages.ts` line 525. -/
def cancelNotFoundMsg (batchId : Nat) : String :=
  "No active generation found for batch " ++ toString batchId

/-- `referenceImages.ts` lines 530-534, the cancellation loop: for each active
job of the batch, await the remote cancel (the `cancel` oracle gives each
call's outcome), record status `canceled` on its row, and delete it from the
active map. A failing remote cancel throws out of the loop immediately, the
state frozen as it stood. -/
def cancelLoop (cancel : String → Except String Unit) :
    List GenJob → GenState → Except (String × GenState) GenState
  | [], s => Except.ok s
  | job :: rest, s =>
    match cancel job.predictionId with
    | Except.error e => Except.error (e, s)
    | Except.ok _ =>
      cancelLoop cancel rest
        { s with
          jobs := updatePredictionJobStatus s.jobs job.predictionId PredStatus.canceled none
          activeJobs := mapDelete s.activeJobs job.predictionId }

/-- `referenceImages.ts` lines 521-542, `cancelGeneration`: collect the active
jobs of the batch (values of the map, in insertion order), throw if there are
none, run the cancellation loop, and — only when every cancel succeeded —
force the batch to `failed` with "Generation canceled by user". An error in
the loop is logged and rethrown, skipping the batch update. -/
def cancelGeneration (cancel : String → Except String Unit) (batchId : Nat) (now : Int)
    (s : GenState) : Except String Unit × GenState :=
  let activeBatchJobs := (s.activeJobs.map (fun p => p.2)).filter (fun j => j.batchId == batchId)
  if activeBatchJobs.length = 0 then
    (Except.error (cancelNotFoundMsg batchId), s)
  else
    match cancelLoop cancel activeBatchJobs s with
    | Except.ok s' =>
      (Except.ok (),
       { s' with batches := (updateBatchStatus s'.batches batchId now BatchStatus.failed
           (some "Generation canceled by user")) })
    | Except.error (e, s') => (Except.error e, s')

/-- A row of the reference-images table (`referenceImages.ts` first module;
fields as read by the service). -/
structure RefImageRow where
  id : Nat
  filename : String
  original_name : String
  file_hash_sha256 : String
  content_type : String
  size : Nat
deriving DecidableEq

/-- A row of the uploaded-reference-images table: the external (Replicate)
staging record for one reference image. -/
structure UploadedRefRow where
  reference_image_id : Nat
  replicate_file_id : String
  replicate_expires_at : Option Int
deriving DecidableEq

/-- The reference-image store: both tables plus the id counter of the
reference-images table. -/
structure RefStore where
  refImages : List RefImageRow
  uploads : List UploadedRefRow
  nextRefImageId : Nat
deriving DecidableEq

/-- Modelled from the spec: `getReferenceImageByHash`, the persistence lookup
called at `referenceImages.ts` line 116, is absent from the sources; the
content hash is a unique key (spec section 3), so it is a plain lookup. -/
def getReferenceImageByHash (st : RefStore) (h : String) : Option RefImageRow :=
  st.refImages.find? (fun r => r.file_hash_sha256 == h)

/-- Modelled from the spec: `createReferenceImage`, called at
`referenceImages.ts` lines 120-126, is absent from the sources; it inserts a
fresh row with the next id and returns it. -/
def createReferenceImage (st : RefStore) (filename originalName fileHash contentType : String)
    (size : Nat) : RefImageRow × RefStore :=
  let row : RefImageRow := ⟨st.nextRefImageId, filename, originalName, fileHash, contentType, size⟩
  (row, { st with refImages := st.refImages ++ [row], nextRefImageId := st.nextRefImageId + 1 })

/-- Modelled from the spec: `getUploadedReferenceImage`, called at
`referenceImages.ts` line 130, is absent from the sources; spec section 3 has
one active record per reference image, last write wins, so the lookup returns
the most recent record for the id. -/
def getUploadedReferenceImage (st : RefStore) (refId : Nat) : Option UploadedRefRow :=
  st.uploads.find? (fun u => u.reference_image_id == refId)

/-- Modelled from the spec: `createUploadedReferenceImage`, called at
`referenceImages.ts` lines 148-153, is absent from the sources; it records the
new upload for the reference image, replacing any prior record (last write
wins, spec section 3). -/
def createUploadedReferenceImage (st : RefStore) (refId : Nat) (fileId : String)
    (expiresAt : Option Int) : RefStore :=
  { st with uploads :=
      ⟨refId, fileId, expiresAt⟩ :: st.uploads.filter (fun u => u.reference_image_id != refId) }

/-- `referenceImages.ts` lines 43-52, `isReplicateUploadValid`: a missing
expiry is invalid; otherwise the remaining time in hours (exact rational
arithmetic standing in for the JS float division) must exceed 4. -/
def isReplicateUploadValid (now : Int) (expiresAt : Option Int) : Bool :=
  match expiresAt with
  | none => false
  | some exp =>
    let hoursUntilExpiry : ℚ := ((exp : ℚ) - (now : ℚ)) / (1000 * 60 * 60)
    decide (hoursUntilExpiry > 4)

/-- An incoming file (`referenceImages.ts` lines 6-11); the byte buffer is
modelled as a string. -/
structure FileUpload where
  filename : String
  originalName : String
  buffer : String
  contentType : String
deriving DecidableEq

/-- sha256 (`referenceImages.ts` lines 36-38) modelled as an idealised
collision-free digest: deduplication depends only on digest equality of the
byte content, so the content itself serves as its own digest. -/
def calculateFileHash (buffer : String) : String := buffer

/-- `referenceImages.ts` lines 104-106. -/
def getReplicateUrl (fileId : String) : String :=
  "https://api.replicate.com/v1/files/" ++ fileId

/-- `referenceImages.ts` lines 13-17. -/
structure ReferenceImageResult where
  referenceImageId : Nat
  replicateUrl : String
  isExpired : Bool
deriving DecidableEq

/-- `referenceImages.ts` lines 111-163, `processReferenceImage` (the cache's
`resolve`): hash the bytes, reuse or create the reference-image row, and reuse
a still-valid upload record or stage a new upload. The `uplId`/`uplExpiresAt`
arguments are the response the external upload endpoint would return; the
final component counts the external upload calls made (0 or 1).
`isExpired` is true exactly when a prior upload record existed but was no
longer valid. -/
def processReferenceImage (now : Int) (uplId : String) (uplExpiresAt : Option Int)
    (file : FileUpload) (st : RefStore) : ReferenceImageResult × RefStore × Nat :=
  let fileHash := calculateFileHash file.buffer
  let rs :=
    match getReferenceImageByHash st fileHash with
    | some r => (r, st)
    | none => createReferenceImage st file.filename file.originalName fileHash
        file.contentType file.buffer.length
  let referenceImage := rs.1
  let st1 := rs.2
  match getUploadedReferenceImage st1 referenceImage.id with
  | some uploadedRef =>
    if isReplicateUploadValid now uploadedRef.replicate_expires_at then
      (⟨referenceImage.id, getReplicateUrl uploadedRef.replicate_file_id, false⟩, st1, 0)
    else
      (⟨referenceImage.id, getReplicateUrl uplId, true⟩,
       createUploadedReferenceImage st1 referenceImage.id uplId uplExpiresAt, 1)
  | none =>
    (⟨referenceImage.id, getReplicateUrl uplId, false⟩,
     createUploadedReferenceImage st1 referenceImage.id uplId uplExpiresAt, 1)

/-- The progress of one in-flight `processReferenceImage` call, cut at its one
suspension point: everything before the awaited external upload runs
synchronously (Bun's sqlite calls do not yield), the upload await suspends,
and the recording after the upload runs synchronously again. -/
inductive ResolveThread
  | notStarted
  | midUpload (refImageId : Nat) (wasExpired : Bool)
  | done (result : ReferenceImageResult)
deriving DecidableEq

/-- One atomic step of a `processReferenceImage` call against the shared
store: from `notStarted`, run `referenceImages.ts` lines 112-139 (hash, dedup
row, upload-record check) and either finish at once reusing a valid upload or
issue the external upload and suspend; from `midUpload`, run lines 147-162
(record the upload, build the result). The count is the number of external
upload calls the step issues. -/
def stepResolve (now : Int) (uplId : String) (uplExpiresAt : Option Int) (file : FileUpload) :
    ResolveThread → RefStore → ResolveThread × RefStore × Nat
  | ResolveThread.notStarted, st =>
    let fileHash := calculateFileHash file.buffer
    let rs :=
      match getReferenceImageByHash st fileHash with
      | some r => (r, st)
      | none => createReferenceImage st file.filename file.originalName fileHash
          file.contentType file.buffer.length
    let referenceImage := rs.1
    let st1 := rs.2
    match getUploadedReferenceImage st1 referenceImage.id with
    | some uploadedRef =>
      if isReplicateUploadValid now uploadedRef.replicate_expires_at then
        (ResolveThread.done ⟨referenceImage.id, getReplicateUrl uploadedRef.replicate_file_id, false⟩,
         st1, 0)
      else
        (ResolveThread.midUpload referenceImage.id true, st1, 1)
    | none => (ResolveThread.midUpload referenceImage.id false, st1, 1)
  | ResolveThread.midUpload refId wasExpired, st =>
    (ResolveThread.done ⟨refId, getReplicateUrl uplId, wasExpired⟩,
     createUploadedReferenceImage st refId uplId uplExpiresAt, 0)
  | ResolveThread.done r, st => (ResolveThread.done r, st, 0)

/-- Interleaved execution of two concurrent `processReferenceImage` calls for
the same file: the schedule picks which call advances by one atomic step
(true for the first call, false for the second); each call gets its own
external upload response id. Returns both thread states, the final store, and
the total number of external upload calls issued. -/
def runSchedule (now : Int) (uplId1 uplId2 : String) (uplExpiresAt : Option Int)
    (file : FileUpload) :
    List Bool → ResolveThread × ResolveThread → RefStore → Nat →
    (ResolveThread × ResolveThread) × RefStore × Nat
  | [], ts, st, n => (ts, st, n)
  | b :: rest, ts, st, n =>
    if b then
      let r := stepResolve now uplId1 uplExpiresAt file ts.1 st
      runSchedule now uplId1 uplId2 uplExpiresAt file rest (r.1, ts.2) r.2.1 (n + r.2.2)
    else
      let r := stepResolve now uplId2 uplExpiresAt file ts.2 st
      runSchedule now uplId1 uplId2 uplExpiresAt file rest (ts.1, r.1) r.2.1 (n + r.2.2)

/-! Concrete fixtures used by the counterexample and witness theorems below. -/

/-- A batch (id 7) with a single job that ended `aborted`. -/
def exJobsAborted : JobTable := [⟨"p1", 7, 0, PredStatus.aborted, none⟩]

/-- The batch table for the aborted-job scenario: batch 7 still `processing`. -/
def exDbAborted : BatchTable := [(7, ⟨"a cat", 1, BatchStatus.processing, none, none⟩)]

/-- A prediction whose remote status never leaves `processing`. -/
def statusAlwaysProcessing : Nat → GenResult := fun _ => ⟨PredStatus.processing, none, none⟩

/-- An ingestion collaborator that always succeeds. -/
def ingestOk : String → Except String Unit := fun _ => Except.ok ()

/-- Service state with one active job `p1` of batch 7, its row `starting`. -/
def stateTimeout : GenState :=
  { batches := [(7, ⟨"a cat", 1, BatchStatus.processing, none, none⟩)]
    jobs := [⟨"p1", 7, 0, PredStatus.starting, none⟩]
    activeJobs := [("p1", ⟨7, "p1", 0, 0⟩)]
    images := [] }

/-- A prediction that reports `succeeded` with one output URL at once. -/
def statusSucceeded : Nat → GenResult :=
  fun _ => ⟨PredStatus.succeeded, some "https://replicate.delivery/out/1.png", none⟩

/-- An ingestion collaborator whose download/storage step fails. -/
def ingestFails : String → Except String Unit :=
  fun _ => Except.error "Failed to download image"

/-- Service state with one active job `p9` of batch 9, its row `processing`. -/
def stateIngest : GenState :=
  { batches := [(9, ⟨"a dog", 1, BatchStatus.processing, none, none⟩)]
    jobs := [⟨"p9", 9, 0, PredStatus.processing, none⟩]
    activeJobs := [("p9", ⟨9, "p9", 0, 0⟩)]
    images := [] }

/-- A submit oracle failing at index 0 and succeeding afterwards. -/
def submitFailsAt0 : Nat → Except String String :=
  fun i => if i == 0 then Except.error "boom" else Except.ok ("p" ++ toString i)

/-- A submit oracle succeeding at index 0 and failing at index 1. -/
def submitFailsAt1 : Nat → Except String String :=
  fun i => if i == 1 then Except.error "rate limited" else Except.ok ("p" ++ toString i)

/-- A fresh pending batch 7 asking for two images. -/
def statePending2 : GenState :=
  { batches := [(7, ⟨"a cat", 2, BatchStatus.pending, none, none⟩)]
    jobs := []
    activeJobs := []
    images := [] }

/-- A fresh pending batch 7 asking for three images. -/
def statePending3 : GenState :=
  { batches := [(7, ⟨"a cat", 3, BatchStatus.pending, none, none⟩)]
    jobs := []
    activeJobs := []
    images := [] }

/-- A batch 7 already `completed`: `startGeneration` must refuse it. -/
def stateCompleted : GenState :=
  { batches := [(7, ⟨"a cat", 2, BatchStatus.completed, some 50, none⟩)]
    jobs := []
    activeJobs := []
    images := [] }

/-- A remote cancel oracle that fails for prediction `p1` only. -/
def cancelFailsP1 : String → Except String Unit :=
  fun pid => if pid == "p1" then Except.error "Failed to cancel generation: network" else Except.ok ()

/-- A remote cancel oracle that always succeeds. -/
def cancelAlwaysOk : String → Except String Unit := fun _ => Except.ok ()

/-- Batch 5 with two active jobs `p1`, `p2` (rows `processing` and `starting`)
and a third job `p3` that already `succeeded`. -/
def stateTwoActive : GenState :=
  { batches := [(5, ⟨"a fish", 3, BatchStatus.processing, none, none⟩)]
    jobs := [⟨"p1", 5, 0, PredStatus.processing, none⟩,
             ⟨"p2", 5, 1, PredStatus.starting, none⟩,
             ⟨"p3", 5, 2, PredStatus.succeeded, none⟩]
    activeJobs := [("p1", ⟨5, "p1", 0, 0⟩), ("p2", ⟨5, "p2", 1, 0⟩)]
    images := [] }

/-- Jobs of batch 4 after a user cancellation: both rows `canceled`. -/
def exJobsCanceled : JobTable :=
  [⟨"q1", 4, 0, PredStatus.canceled, none⟩, ⟨"q2", 4, 1, PredStatus.canceled, none⟩]

/-- Batch 4 already terminal: `failed` with the cancellation message. -/
def exDbCanceled : BatchTable :=
  [(4, ⟨"a bird", 2, BatchStatus.failed, none, some "Generation canceled by user"⟩)]

/-- An uploaded file fixture. -/
def fileA : FileUpload := ⟨"a.png", "A.png", "bytesA", "image/png"⟩

/-- The reference-image row of `fileA` in the expiry fixtures. -/
def rowA : RefImageRow := ⟨1, "a.png", "A.png", "bytesA", "image/png", 6⟩

/-- An upload record for `rowA` expiring 3 hours after time 0. -/
def upl3h : UploadedRefRow := ⟨1, "file-old", some 10800000⟩

/-- An upload record for `rowA` expiring 5 hours after time 0. -/
def upl5h : UploadedRefRow := ⟨1, "file-old", some 18000000⟩

/-- Store holding the reference image of `fileA` (id 1) with an upload record
expiring 3 hours after time 0. -/
def storeExpiring3h : RefStore :=
  { refImages := [rowA]
    uploads := [upl3h]
    nextRefImageId := 2 }

/-- Store holding the reference image of `fileA` (id 1) with an upload record
expiring 5 hours after time 0. -/
def storeExpiring5h : RefStore :=
  { refImages := [rowA]
    uploads := [upl5h]
    nextRefImageId := 2 }

/-- An empty reference-image store. -/
def storeEmpty : RefStore := { refImages := [], uploads := [], nextRefImageId := 1 }

/-- The overlapped schedule: both resolve calls run their check phase before
either records its upload. -/
def overlappedSchedule : List Bool := [true, false, true, false]

/-- Prediction ids used by the fan-out witness fixture. -/
def pidsW : Nat → String := fun j => "p" ++ toString j

/-- The per-row effect of the cancellation loop on the job table: a row whose
prediction id is among the cancelled ones ends with status `canceled` and a
cleared error; every other row is untouched. -/
def markCanceledIfIn (pids : List String) (j : PredJob) : PredJob :=
  if pids.contains j.predictionId then
    { j with status := PredStatus.canceled, error := none }
  else j

/-- The cumulative effect of `k` successful fan-out submissions starting at
image index `i`: each appends a `starting` job row and registers the active
job, exactly as one loop iteration of `startGeneration` does. -/
def addStarted (batchId : Nat) (now : Int) (pids : Nat → String) :
    GenState → Nat → Nat → GenState
  | s, _, 0 => s
  | s, i, Nat.succ k =>
    addStarted batchId now pids
      { s with
        jobs := createPredictionJob s.jobs batchId (pids i) i
        activeJobs := mapSet s.activeJobs (pids i) ⟨batchId, pids i, i, now⟩ }
      (i + 1) k

deriving instance DecidableEq for Except

/-! Helper lemmas about the embedded operations. -/

/-- Point lookup after a batch status update: the targeted row gets the
per-row effect, every other row is untouched. -/
theorem getBatch_updateBatchStatus (db : BatchTable) (id id' : Nat) (now : Int)
    (st : BatchStatus) (msg : Option String) :
    getBatch (updateBatchStatus db id now st msg) id' =
      if id' = id then (getBatch db id').map (updateBatchRow now st msg)
      else getBatch db id' := by
  induction db with
  | nil => simp [getBatch, updateBatchStatus]
  | cons p rest ih =>
    rcases p with ⟨k, b⟩
    by_cases hk : k = id
    · subst hk
      by_cases hk' : k = id'
      · subst hk'
        simp [getBatch, updateBatchStatus]
      · have hne : ¬ id' = k := fun h => hk' h.symm
        simp only [getBatch, updateBatchStatus] at ih ⊢
        simp only [List.map_cons]
        rw [List.find?_cons_of_neg, List.find?_cons_of_neg]
        · rw [if_neg hne] at ih ⊢
          exact ih
        · simp [hk']
        · simp [if_pos, hk']
    · by_cases hk' : k = id'
      · subst hk'
        have hne : ¬ k = id := hk
        simp [getBatch, updateBatchStatus, List.find?_cons_of_pos, hne, Ne.symm hne]
      · simp only [getBatch, updateBatchStatus] at ih ⊢
        simp only [List.map_cons]
        rw [List.find?_cons_of_neg, List.find?_cons_of_neg]
        · exact ih
        · simp [hk']
        · simp [hk, hk']

/-- Writing the same status and message twice to a row is absorbed into the
last write: every field the update touches depends only on the update's own
arguments, never on the prior row. -/
theorem updateBatchRow_absorb (now1 now2 : Int) (st : BatchStatus) (msg : Option String)
    (b : BatchRow) :
    updateBatchRow now2 st msg (updateBatchRow now1 st msg b) = updateBatchRow now2 st msg b := rfl

/-- Table-level absorption: updating a batch to the same status and message
twice leaves the table exactly as the second update alone would. -/
theorem updateBatchStatus_absorb (db : BatchTable) (id : Nat) (now1 now2 : Int)
    (st : BatchStatus) (msg : Option String) :
    updateBatchStatus (updateBatchStatus db id now1 st msg) id now2 st msg =
      updateBatchStatus db id now2 st msg := by
  unfold updateBatchStatus
  rw [List.map_map]
  apply List.map_eq_map_iff.mpr
  intro p _
  dsimp only [Function.comp]
  by_cases hk : p.1 == id
  · simp [hk, updateBatchRow_absorb]
  · simp [hk]

/-- The fold in `getBatchProgress` amounts to four per-status counts: only
`succeeded` fills the completed bucket, only `failed` and `canceled` fill the
failed bucket, and `starting`, `processing` and `aborted` all land in the
processing bucket. -/
theorem getBatchProgress_fields (jobs : JobTable) (bid : Nat) :
    getBatchProgress jobs bid =
      ⟨bid,
       countStatus jobs bid PredStatus.starting + countStatus jobs bid PredStatus.processing +
         countStatus jobs bid PredStatus.succeeded + countStatus jobs bid PredStatus.failed +
         countStatus jobs bid PredStatus.canceled + countStatus jobs bid PredStatus.aborted,
       countStatus jobs bid PredStatus.succeeded,
       countStatus jobs bid PredStatus.failed + countStatus jobs bid PredStatus.canceled,
       countStatus jobs bid PredStatus.starting + countStatus jobs bid PredStatus.processing +
         countStatus jobs bid PredStatus.aborted⟩ := by
  simp [getBatchProgress, getBatchJobProgress, allPredStatuses, BatchProgress.mk.injEq]

/-- A per-status count vanishes exactly when no job of the batch holds the
status. -/
theorem countStatus_eq_zero_iff (jobs : JobTable) (bid : Nat) (s : PredStatus) :
    countStatus jobs bid s = 0 ↔ ∀ j ∈ jobs, j.batchId = bid → j.status ≠ s := by
  simp [countStatus, List.length_eq_zero, List.filter_eq_nil_iff]

/-- The aggregator sees no processing jobs exactly when every job of the batch
holds one of the three statuses it counts as done. -/
theorem processing_zero_iff (jobs : JobTable) (bid : Nat) :
    (getBatchProgress jobs bid).processing = 0 ↔
      ∀ j ∈ jobs, j.batchId = bid → isAggTerminal j.status = true := by
  rw [getBatchProgress_fields]
  dsimp only
  constructor
  · intro h
    have h1 : countStatus jobs bid PredStatus.starting = 0 := by omega
    have h2 : countStatus jobs bid PredStatus.processing = 0 := by omega
    have h3 : countStatus jobs bid PredStatus.aborted = 0 := by omega
    rw [countStatus_eq_zero_iff] at h1 h2 h3
    intro j hj hb
    have e1 := h1 j hj hb
    have e2 := h2 j hj hb
    have e3 := h3 j hj hb
    cases hs : j.status <;> simp_all [isAggTerminal]
  · intro h
    have h1 : countStatus jobs bid PredStatus.starting = 0 := by
      rw [countStatus_eq_zero_iff]
      intro j hj hb hs
      have := h j hj hb
      rw [hs] at this
      simp [isAggTerminal] at this
    have h2 : countStatus jobs bid PredStatus.processing = 0 := by
      rw [countStatus_eq_zero_iff]
      intro j hj hb hs
      have := h j hj hb
      rw [hs] at this
      simp [isAggTerminal] at this
    have h3 : countStatus jobs bid PredStatus.aborted = 0 := by
      rw [countStatus_eq_zero_iff]
      intro j hj hb hs
      have := h j hj hb
      rw [hs] at this
      simp [isAggTerminal] at this
    omega

/-- The aggregator sees a completed job exactly when some job of the batch
succeeded. -/
theorem completed_pos_iff (jobs : JobTable) (bid : Nat) :
    0 < (getBatchProgress jobs bid).completed ↔
      ∃ j ∈ jobs, j.batchId = bid ∧ j.status = PredStatus.succeeded := by
  rw [getBatchProgress_fields]
  dsimp only
  rw [Nat.pos_iff_ne_zero, Ne, countStatus_eq_zero_iff]
  push_neg
  rfl

/-- Full characterisation of `checkBatchCompletion` in terms of the batch's
job statuses: a transition happens exactly when every job of the batch holds
`succeeded`, `failed` or `canceled`, and it is to `completed` exactly when one
of them is `succeeded`. -/
theorem checkBatchCompletion_spec (jobs : JobTable) (bid : Nat) (now : Int) (db : BatchTable) :
    checkBatchCompletion jobs bid now db =
      if ∀ j ∈ jobs, j.batchId = bid → isAggTerminal j.status = true then
        (if ∃ j ∈ jobs, j.batchId = bid ∧ j.status = PredStatus.succeeded then
          updateBatchStatus db bid now BatchStatus.completed none
        else
          updateBatchStatus db bid now BatchStatus.failed
            (some "All image generations failed"))
      else db := by
  unfold checkBatchCompletion
  by_cases hp : (getBatchProgress jobs bid).processing = 0
  · rw [if_pos hp, if_pos ((processing_zero_iff jobs bid).mp hp)]
    by_cases hc : (getBatchProgress jobs bid).completed > 0
    · rw [if_pos hc, if_pos ((completed_pos_iff jobs bid).mp hc)]
    · rw [if_neg hc, if_neg (fun h => hc ((completed_pos_iff jobs bid).mpr h))]
  · rw [if_neg hp, if_neg (fun h => hp ((processing_zero_iff jobs bid).mpr h))]

/-- The validity test of `isReplicateUploadValid`, phrased over the integer
timestamps: the exact rational division by an hour compares above 4 exactly
when the remaining time exceeds four hours in milliseconds. -/
theorem isReplicateUploadValid_some (now exp : Int) :
    isReplicateUploadValid now (some exp) = decide (4 * (1000 * 60 * 60) < exp - now) := by
  unfold isReplicateUploadValid
  apply decide_eq_decide.mpr
  have h3 : (0 : ℚ) < 1000 * 60 * 60 := by norm_num
  rw [gt_iff_lt, lt_div_iff₀ h3]
  constructor
  · intro h
    have : ((4 * (1000 * 60 * 60) : Int) : ℚ) < ((exp - now : Int) : ℚ) := by push_cast; linarith
    exact_mod_cast this
  · intro h
    have : ((4 * (1000 * 60 * 60) : Int) : ℚ) < ((exp - now : Int) : ℚ) := by exact_mod_cast h
    push_cast at this
    linarith

/-- Projection: the fan-out iterations never touch the batches table. -/
theorem addStarted_batches (batchId : Nat) (now : Int) (pids : Nat → String) :
    ∀ (k i : Nat) (s : GenState), (addStarted batchId now pids s i k).batches = s.batches := by
  intro k
  induction k with
  | zero => intro i s; rfl
  | succ k ih => intro i s; exact ih (i + 1) _

/-- Projection: `k` fan-out iterations starting at index `i` append exactly the
job rows for indices `i .. i+k-1`, each with status `starting`. -/
theorem addStarted_jobs (batchId : Nat) (now : Int) (pids : Nat → String) :
    ∀ (k i : Nat) (s : GenState),
      (addStarted batchId now pids s i k).jobs =
        s.jobs ++ (List.range' i k).map
          (fun j => ⟨pids j, batchId, j, PredStatus.starting, none⟩) := by
  intro k
  induction k with
  | zero => intro i s; simp [addStarted]
  | succ k ih =>
    intro i s
    rw [addStarted, ih (i + 1)]
    simp [createPredictionJob, List.range']

/-- Behaviour of the fan-out loop when the submit call for the k-th remaining
index fails after k successes: the loop throws at once with the state holding
the k already-created jobs and the created prediction ids. -/
theorem fanoutLoop_err (submit : Nat → Except String String) (batchId : Nat) (now : Int)
    (pids : Nat → String) (msg : String) :
    ∀ (k n i : Nat) (s : GenState) (created : List String),
      k < n →
      (∀ j, j < k → submit (i + j) = Except.ok (pids (i + j))) →
      submit (i + k) = Except.error msg →
      fanoutLoop submit batchId now n i s created =
        Except.error ⟨msg, addStarted batchId now pids s i k,
          created ++ (List.range' i k).map pids⟩ := by
  intro k
  induction k with
  | zero =>
    intro n i s created hn _ herr
    rcases n with _ | m
    · omega
    · rw [fanoutLoop]
      rw [Nat.add_zero] at herr
      rw [herr]
      simp [addStarted]
  | succ k ih =>
    intro n i s created hn hok herr
    rcases n with _ | m
    · omega
    · rw [fanoutLoop]
      have h0 := hok 0 (Nat.succ_pos k)
      rw [Nat.add_zero] at h0
      rw [h0]
      have hok' : ∀ j, j < k → submit ((i + 1) + j) = Except.ok (pids ((i + 1) + j)) := by
        intro j hj
        have := hok (j + 1) (by omega)
        have harr : i + (j + 1) = i + 1 + j := by omega
        rw [harr] at this
        exact this
      have herr' : submit ((i + 1) + k) = Except.error msg := by
        have harr : i + (k + 1) = i + 1 + k := by omega
        rw [harr] at herr
        exact herr
      dsimp only
      rw [ih m (i + 1) _ _ (by omega) hok' herr']
      have hr : List.range' i (k + 1) = i :: List.range' (i + 1) k := rfl
      rw [hr]
      simp [addStarted]

/-- Recording `canceled` on one prediction id and then marking a set of ids is
the same as marking the enlarged set. -/
theorem updateThenMark (pid : String) (pids : List String) (jobs : JobTable) :
    (updatePredictionJobStatus jobs pid PredStatus.canceled none).map (markCanceledIfIn pids) =
      jobs.map (markCanceledIfIn (pid :: pids)) := by
  induction jobs with
  | nil => rfl
  | cons j rest ih =>
    simp only [updatePredictionJobStatus, List.map_cons] at ih ⊢
    rw [ih]
    congr 1
    by_cases hpid : j.predictionId = pid
    · simp [markCanceledIfIn, hpid]
    · simp [markCanceledIfIn, hpid]

/-- Deleting one key from the active map and then dropping a set of keys is
the same as dropping the enlarged set. -/
theorem deleteThenFilter (pid : String) (pids : List String) (m : List (String × GenJob)) :
    (mapDelete m pid).filter (fun p => !pids.contains p.1) =
      m.filter (fun p => !((pid :: pids).contains p.1)) := by
  induction m with
  | nil => rfl
  | cons e rest ih =>
    simp only [mapDelete, List.filter] at ih ⊢
    by_cases hpid : e.1 = pid
    · simp only [hpid, bne_self_eq_false]
      have hc : ((pid :: pids).contains pid) = true := by simp
      rw [hc]
      exact ih
    · have hb : (e.1 != pid) = true := by simp [hpid]
      rw [hb]
      have hc : ((pid :: pids).contains e.1) = (pids.contains e.1) := by
        simp [List.contains_cons, hpid]
      simp only [List.filter, hc] at ih ⊢
      rcases h2 : !pids.contains e.1 with _ | _
      · exact ih
      · rw [ih]

/-- Behaviour of the cancellation loop when every remote cancel succeeds: the
listed jobs' rows are all recorded `canceled`, their entries leave the active
map, and nothing else changes. -/
theorem cancelLoop_ok (cancel : String → Except String Unit) :
    ∀ (l : List GenJob) (s : GenState),
      (∀ j ∈ l, cancel j.predictionId = Except.ok ()) →
      cancelLoop cancel l s = Except.ok
        { s with
          jobs := s.jobs.map (markCanceledIfIn (l.map (fun j => j.predictionId)))
          activeJobs := s.activeJobs.filter
            (fun p => !(l.map (fun j => j.predictionId)).contains p.1) } := by
  intro l
  induction l with
  | nil =>
    intro s _
    have h1 : s.jobs.map (markCanceledIfIn []) = s.jobs.map id :=
      List.map_eq_map_iff.mpr (fun a _ => by simp [markCanceledIfIn])
    simp [cancelLoop, h1]
  | cons job rest ih =>
    intro s hok
    rw [cancelLoop]
    rw [hok job (List.mem_cons_self job rest)]
    rw [ih _ (fun j hj => hok j (List.mem_cons_of_mem job hj))]
    dsimp only [List.map_cons]
    rw [updateThenMark, deleteThenFilter]

/-- Searching an appended list when the first part has no match. -/
theorem find?_append_none {α : Type} (p : α → Bool) (l1 l2 : List α)
    (h : l1.find? p = none) : (l1 ++ l2).find? p = l2.find? p := by
  induction l1 with
  | nil => rfl
  | cons a rest ih =>
    rcases hpa : p a with _ | _
    · rw [List.cons_append, List.find?_cons_of_neg _ (by simp [hpa])]
      rw [List.find?_cons_of_neg _ (by simp [hpa])] at h
      exact ih h
    · rw [List.find?_cons_of_pos _ hpa] at h
      exact absurd h (by simp)

/-- Recording a fresh upload makes it the current record for its reference
image (last write wins). -/
theorem getUploaded_createUploaded_self (st : RefStore) (refId : Nat) (fid : String)
    (exp : Option Int) :
    getUploadedReferenceImage (createUploadedReferenceImage st refId fid exp) refId =
      some ⟨refId, fid, exp⟩ := by
  unfold getUploadedReferenceImage createUploadedReferenceImage
  exact List.find?_cons_of_pos _ (by simp)

/-- Recording an upload leaves the reference-image table untouched. -/
theorem getRefByHash_createUploaded (st : RefStore) (refId : Nat) (fid : String)
    (exp : Option Int) (h : String) :
    getReferenceImageByHash (createUploadedReferenceImage st refId fid exp) h =
      getReferenceImageByHash st h := rfl

/-- A freshly created reference-image row is found by its own hash. -/
theorem getRefByHash_create_self (st : RefStore) (fn orig ct : String) (sz : Nat) (h : String)
    (hnone : getReferenceImageByHash st h = none) :
    getReferenceImageByHash (createReferenceImage st fn orig h ct sz).2 h =
      some (createReferenceImage st fn orig h ct sz).1 := by
  unfold getReferenceImageByHash at hnone
  unfold getReferenceImageByHash createReferenceImage
  dsimp only
  rw [find?_append_none _ _ _ hnone]
  exact List.find?_cons_of_pos _ (by simp)

/-- A resolve that finds a known hash with a still-valid upload record reuses
it: no external upload happens and the store is unchanged. -/
theorem processRef_reuse (now : Int) (uplId : String) (uplExp : Option Int)
    (file : FileUpload) (st : RefStore) (r : RefImageRow) (u : UploadedRefRow)
    (hr : getReferenceImageByHash st (calculateFileHash file.buffer) = some r)
    (hu : getUploadedReferenceImage st r.id = some u)
    (hv : isReplicateUploadValid now u.replicate_expires_at = true) :
    processReferenceImage now uplId uplExp file st =
      (⟨r.id, getReplicateUrl u.replicate_file_id, false⟩, st, 0) := by
  unfold processReferenceImage
  dsimp only
  rw [hr]
  dsimp only
  rw [hu]
  dsimp only
  rw [if_pos hv]

/-- After a resolve whose upload response is still far from expiry, the store
is ready for a same-hash reuse: the hash resolves to a row whose current
upload record is valid and matches the returned result. -/
theorem processRef_second_ready (now : Int) (uplId : String) (e1 : Int)
    (file : FileUpload) (st : RefStore)
    (hval : 4 * (1000 * 60 * 60) < e1 - now) :
    ∃ (r' : RefImageRow) (u' : UploadedRefRow),
      getReferenceImageByHash (processReferenceImage now uplId (some e1) file st).2.1
          (calculateFileHash file.buffer) = some r' ∧
      getUploadedReferenceImage (processReferenceImage now uplId (some e1) file st).2.1 r'.id
        = some u' ∧
      isReplicateUploadValid now u'.replicate_expires_at = true ∧
      (processReferenceImage now uplId (some e1) file st).1.referenceImageId = r'.id ∧
      (processReferenceImage now uplId (some e1) file st).1.replicateUrl
        = getReplicateUrl u'.replicate_file_id := by
  have hnewvalid : isReplicateUploadValid now (some e1) = true := by
    rw [isReplicateUploadValid_some]
    exact decide_eq_true hval
  rcases hr : getReferenceImageByHash st (calculateFileHash file.buffer) with _ | r
  · rcases hu : getUploadedReferenceImage (createReferenceImage st file.filename file.originalName (calculateFileHash file.buffer) file.contentType file.buffer.length).2 (createReferenceImage st file.filename file.originalName (calculateFileHash file.buffer) file.contentType file.buffer.length).1.id with _ | u
    · have hcall : processReferenceImage now uplId (some e1) file st =
          (⟨(createReferenceImage st file.filename file.originalName (calculateFileHash file.buffer) file.contentType file.buffer.length).1.id, getReplicateUrl uplId, false⟩,
           createUploadedReferenceImage (createReferenceImage st file.filename file.originalName (calculateFileHash file.buffer) file.contentType file.buffer.length).2 (createReferenceImage st file.filename file.originalName (calculateFileHash file.buffer) file.contentType file.buffer.length).1.id uplId (some e1), 1) := by
        unfold processReferenceImage
        dsimp only
        rw [hr]
        dsimp only
        rw [hu]
      refine ⟨(createReferenceImage st file.filename file.originalName (calculateFileHash file.buffer) file.contentType file.buffer.length).1, ⟨(createReferenceImage st file.filename file.originalName (calculateFileHash file.buffer) file.contentType file.buffer.length).1.id, uplId, some e1⟩, ?_, ?_, hnewvalid, ?_, ?_⟩
      · rw [hcall]
        dsimp only
        rw [getRefByHash_createUploaded]
        exact getRefByHash_create_self st _ _ _ _ _ hr
      · rw [hcall]
        dsimp only
        exact getUploaded_createUploaded_self _ _ _ _
      · rw [hcall]
      · rw [hcall]
    · by_cases hv : isReplicateUploadValid now u.replicate_expires_at = true
      · have hcall : processReferenceImage now uplId (some e1) file st =
            (⟨(createReferenceImage st file.filename file.originalName (calculateFileHash file.buffer) file.contentType file.buffer.length).1.id, getReplicateUrl u.replicate_file_id, false⟩, (createReferenceImage st file.filename file.originalName (calculateFileHash file.buffer) file.contentType file.buffer.length).2, 0) := by
          unfold processReferenceImage
          dsimp only
          rw [hr]
          dsimp only
          rw [hu]
          dsimp only
          rw [if_pos hv]
        refine ⟨(createReferenceImage st file.filename file.originalName (calculateFileHash file.buffer) file.contentType file.buffer.length).1, u, ?_, ?_, hv, ?_, ?_⟩
        · rw [hcall]
          exact getRefByHash_create_self st _ _ _ _ _ hr
        · rw [hcall]
          exact hu
        · rw [hcall]
        · rw [hcall]
      · have hcall : processReferenceImage now uplId (some e1) file st =
            (⟨(createReferenceImage st file.filename file.originalName (calculateFileHash file.buffer) file.contentType file.buffer.length).1.id, getReplicateUrl uplId, true⟩,
             createUploadedReferenceImage (createReferenceImage st file.filename file.originalName (calculateFileHash file.buffer) file.contentType file.buffer.length).2 (createReferenceImage st file.filename file.originalName (calculateFileHash file.buffer) file.contentType file.buffer.length).1.id uplId (some e1), 1) := by
          unfold processReferenceImage
          dsimp only
          rw [hr]
          dsimp only
          rw [hu]
          dsimp only
          rw [if_neg hv]
        refine ⟨(createReferenceImage st file.filename file.originalName (calculateFileHash file.buffer) file.contentType file.buffer.length).1, ⟨(createReferenceImage st file.filename file.originalName (calculateFileHash file.buffer) file.contentType file.buffer.length).1.id, uplId, some e1⟩, ?_, ?_, hnewvalid, ?_, ?_⟩
        · rw [hcall]
          dsimp only
          rw [getRefByHash_createUploaded]
          exact getRefByHash_create_self st _ _ _ _ _ hr
        · rw [hcall]
          dsimp only
          exact getUploaded_createUploaded_self _ _ _ _
        · rw [hcall]
        · rw [hcall]
  · rcases hu : getUploadedReferenceImage st r.id with _ | u
    · have hcall : processReferenceImage now uplId (some e1) file st =
          (⟨r.id, getReplicateUrl uplId, false⟩,
           createUploadedReferenceImage st r.id uplId (some e1), 1) := by
        unfold processReferenceImage
        dsimp only
        rw [hr]
        dsimp only
        rw [hu]
      refine ⟨r, ⟨r.id, uplId, some e1⟩, ?_, ?_, hnewvalid, ?_, ?_⟩
      · rw [hcall]
        dsimp only
        rw [getRefByHash_createUploaded]
        exact hr
      · rw [hcall]
        dsimp only
        exact getUploaded_createUploaded_self _ _ _ _
      · rw [hcall]
      · rw [hcall]
    · by_cases hv : isReplicateUploadValid now u.replicate_expires_at = true
      · refine ⟨r, u, ?_, ?_, hv, ?_, ?_⟩ <;>
          rw [processRef_reuse now uplId (some e1) file st r u hr hu hv]
        · exact hr
        · exact hu
      · have hcall : processReferenceImage now uplId (some e1) file st =
            (⟨r.id, getReplicateUrl uplId, true⟩,
             createUploadedReferenceImage st r.id uplId (some e1), 1) := by
          unfold processReferenceImage
          dsimp only
          rw [hr]
          dsimp only
          rw [hu]
          dsimp only
          rw [if_neg hv]
        refine ⟨r, ⟨r.id, uplId, some e1⟩, ?_, ?_, hnewvalid, ?_, ?_⟩
        · rw [hcall]
          dsimp only
          rw [getRefByHash_createUploaded]
          exact hr
        · rw [hcall]
          dsimp only
          exact getUploaded_createUploaded_self _ _ _ _
        · rw [hcall]
        · rw [hcall]

/-! Claim theorems. -/

/-- C1 (amended): for every batch whose jobs all hold status `succeeded`,
`failed` or `canceled`, the aggregator sets the batch to `completed` when at
least one job succeeded — even when others failed — and otherwise to `failed`
with the message "All image generations failed"; when any job of the batch
holds any other status (`starting`, `processing`, and also the terminal
status `aborted`, which the aggregator counts as still active), no batch
status transition occurs. -/
theorem C1_thm (jobs : JobTable) (bid : Nat) (now : Int) (db : BatchTable) :
    checkBatchCompletion jobs bid now db =
      if ∀ j ∈ jobs, j.batchId = bid → isAggTerminal j.status = true then
        (if ∃ j ∈ jobs, j.batchId = bid ∧ j.status = PredStatus.succeeded then
          updateBatchStatus db bid now BatchStatus.completed none
        else
          updateBatchStatus db bid now BatchStatus.failed
            (some "All image generations failed"))
      else db :=
  checkBatchCompletion_spec jobs bid now db

/-- C1: counterexample to the claim as stated — the single job of batch 7
ended in the terminal status `aborted` (terminal per the poll loop itself)
and no job succeeded, yet the aggregator performs no transition at all: the
batch stays `processing` instead of becoming `failed` with
"All image generations failed". -/
theorem C1_counterexample :
    (∀ j ∈ exJobsAborted, isPollTerminal j.status = true) ∧
    (¬ ∃ j ∈ exJobsAborted, j.status = PredStatus.succeeded) ∧
    checkBatchCompletion exJobsAborted 7 0 exDbAborted = exDbAborted ∧
    (getBatch (checkBatchCompletion exJobsAborted 7 0 exDbAborted) 7).map (fun b => b.status)
      = some BatchStatus.processing := by decide

set_option maxRecDepth 8000 in
/-- C2: the poll loop's constants are indeed a 3-second interval and a
5-minute budget (100 polls), but a job still non-terminal when the budget
elapses is never marked `timed_out`: after 100 `processing` responses the
job's row still holds `processing` (the timeout handler only logs), the job
is evicted from the active set, and aggregation counts it as still-active
(processing bucket 1), so the batch stays `processing` instead of treating
the job as a terminal failure. -/
theorem C2_thm :
    maxWaitTime = 300000 ∧ pollInterval = 3000 ∧ numPolls = 100 ∧
    (pollForCompletion statusAlwaysProcessing ingestOk "p1" 0 stateTimeout).jobs.map
        (fun j => j.status) = [PredStatus.processing] ∧
    lookupActive (pollForCompletion statusAlwaysProcessing ingestOk "p1" 0 stateTimeout).activeJobs
        "p1" = none ∧
    (getBatchProgress (pollForCompletion statusAlwaysProcessing ingestOk "p1" 0 stateTimeout).jobs
        7).processing = 1 ∧
    getBatch (pollForCompletion statusAlwaysProcessing ingestOk "p1" 0 stateTimeout).batches 7 =
      some ⟨"a cat", 1, BatchStatus.processing, none, none⟩ := by decide

/-- C3 (amended): a failure submitting the job for one index during the
fan-out aborts submission of the jobs for the remaining indices: the jobs for
the earlier indices keep their `starting` records, no record at all is
created for the failing index (it is not recorded as `failed`), the batch is
set to `failed` with the submit error's message, the error propagates, and no
poll loop is started for any job of the batch. -/
theorem C3_thm (submit : Nat → Except String String) (s : GenState) (bid : Nat) (now : Int)
    (b0 : BatchRow) (pids : Nat → String) (iF : Nat) (msg : String)
    (hb : getBatch s.batches bid = some b0)
    (hp : b0.status = BatchStatus.pending)
    (hi : iF < b0.batch_size)
    (hok : ∀ j, j < iF → submit j = Except.ok (pids j))
    (herr : submit iF = Except.error msg) :
    (startGeneration submit bid now s).1 = Except.error msg ∧
    (startGeneration submit bid now s).2.2 = [] ∧
    getBatch (startGeneration submit bid now s).2.1.batches bid =
      some (updateBatchRow now BatchStatus.failed (some msg) b0) ∧
    (startGeneration submit bid now s).2.1.jobs =
      s.jobs ++ (List.range' 0 iF).map
        (fun j => ⟨pids j, bid, j, PredStatus.starting, none⟩) := by
  have hok' : ∀ j, j < iF → submit (0 + j) = Except.ok (pids (0 + j)) := by
    intro j hj
    rw [Nat.zero_add]
    exact hok j hj
  have herr' : submit (0 + iF) = Except.error msg := by
    rw [Nat.zero_add]
    exact herr
  have hloop := fanoutLoop_err submit bid now pids msg iF b0.batch_size 0
    { s with batches := updateBatchStatus s.batches bid now BatchStatus.processing none }
    [] hi hok' herr'
  unfold startGeneration
  rw [hb]
  have hnp : ¬ b0.status ≠ BatchStatus.pending := by
    rw [hp]
    simp
  dsimp only
  rw [if_neg hnp]
  rw [hloop]
  dsimp only
  refine ⟨rfl, rfl, ?_, ?_⟩
  · rw [addStarted_batches, getBatch_updateBatchStatus, if_pos rfl,
      getBatch_updateBatchStatus, if_pos rfl, hb]
    rfl
  · rw [addStarted_jobs]

/-- C3: counterexample to the claim as stated — with batch 7 pending two
images and the submit call for index 0 failing, startGeneration throws at
once: no job record exists at all (in particular none for index 1, whose
submission the claim said would proceed, and no `failed` record for index 0),
no poll loop starts, and the whole batch is set to `failed` with the submit
error's message. -/
theorem C3_counterexample :
    (startGeneration submitFailsAt0 7 0 statePending2).1 = Except.error "boom" ∧
    (startGeneration submitFailsAt0 7 0 statePending2).2.1.jobs = [] ∧
    (startGeneration submitFailsAt0 7 0 statePending2).2.2 = [] ∧
    getBatch (startGeneration submitFailsAt0 7 0 statePending2).2.1.batches 7 =
      some ⟨"a cat", 2, BatchStatus.failed, none, some "boom"⟩ := by decide

/-- C3: witness — the amended theorem applied to a pending batch of three
images whose submit call fails at index 1 after index 0 succeeded. -/
theorem C3_witness :
    (startGeneration submitFailsAt1 7 0 statePending3).1 = Except.error "rate limited" ∧
    (startGeneration submitFailsAt1 7 0 statePending3).2.2 = [] ∧
    getBatch (startGeneration submitFailsAt1 7 0 statePending3).2.1.batches 7 =
      some (updateBatchRow 0 BatchStatus.failed (some "rate limited")
        ⟨"a cat", 3, BatchStatus.pending, none, none⟩) ∧
    (startGeneration submitFailsAt1 7 0 statePending3).2.1.jobs =
      statePending3.jobs ++ (List.range' 0 1).map
        (fun j => ⟨pidsW j, 7, j, PredStatus.starting, none⟩) :=
  C3_thm submitFailsAt1 statePending3 7 0 ⟨"a cat", 3, BatchStatus.pending, none, none⟩
    pidsW 1 "rate limited" (by decide) rfl (by decide) (by decide) (by decide)

/-- C4 (amended): for every batch with at least one active job, when every
remote cancel call succeeds, cancelGeneration marks each of the batch's
active jobs `canceled`, removes them all from the active set, and forces the
batch to `failed` with "Generation canceled by user" — regardless of the
batch's job statuses, so even if some job of the batch had already succeeded;
an error cancelling one remote job, however, propagates and aborts the
remaining cancellations and the batch update. -/
theorem C4_thm (cancel : String → Except String Unit) (bid : Nat) (now : Int) (s : GenState)
    (hne : (s.activeJobs.map (fun p => p.2)).filter (fun j => j.batchId == bid) ≠ [])
    (hok : ∀ j ∈ (s.activeJobs.map (fun p => p.2)).filter (fun j => j.batchId == bid),
      cancel j.predictionId = Except.ok ()) :
    (cancelGeneration cancel bid now s).1 = Except.ok () ∧
    getBatch (cancelGeneration cancel bid now s).2.batches bid =
      (getBatch s.batches bid).map
        (updateBatchRow now BatchStatus.failed (some "Generation canceled by user")) ∧
    (cancelGeneration cancel bid now s).2.jobs =
      s.jobs.map (markCanceledIfIn
        (((s.activeJobs.map (fun p => p.2)).filter (fun j => j.batchId == bid)).map
          (fun j => j.predictionId))) ∧
    (cancelGeneration cancel bid now s).2.activeJobs =
      s.activeJobs.filter (fun p =>
        !((((s.activeJobs.map (fun q => q.2)).filter (fun j => j.batchId == bid)).map
          (fun j => j.predictionId)).contains p.1)) := by
  unfold cancelGeneration
  have hlen :
      ¬ ((s.activeJobs.map (fun p => p.2)).filter (fun j => j.batchId == bid)).length = 0 := by
    intro h
    exact hne (List.length_eq_zero.mp h)
  rw [if_neg hlen]
  rw [cancelLoop_ok cancel _ s hok]
  dsimp only
  refine ⟨rfl, ?_, rfl, rfl⟩
  rw [getBatch_updateBatchStatus, if_pos rfl]

/-- C4: counterexample to the claim as stated — batch 5 has two active jobs
and the remote cancel of the first (`p1`) fails: the error propagates and
nothing at all happens — `p2` is neither canceled nor removed from the active
set, `p1` stays too, and the batch is not set to `failed` with
"Generation canceled by user"; the failure of one cancel does block the
others. -/
theorem C4_counterexample :
    (cancelGeneration cancelFailsP1 5 0 stateTwoActive).1 =
      Except.error "Failed to cancel generation: network" ∧
    (cancelGeneration cancelFailsP1 5 0 stateTwoActive).2 = stateTwoActive ∧
    lookupActive stateTwoActive.activeJobs "p2" = some ⟨5, "p2", 1, 0⟩ ∧
    (getBatch stateTwoActive.batches 5).map (fun b => b.status) =
      some BatchStatus.processing := by decide

/-- C4: witness — the amended theorem applied to batch 5 with two active jobs
and a third job already `succeeded`; all cancels succeed and the batch is
forced to `failed` with the cancellation message anyway. -/
theorem C4_witness :
    (cancelGeneration cancelAlwaysOk 5 0 stateTwoActive).1 = Except.ok () ∧
    getBatch (cancelGeneration cancelAlwaysOk 5 0 stateTwoActive).2.batches 5 =
      (getBatch stateTwoActive.batches 5).map
        (updateBatchRow 0 BatchStatus.failed (some "Generation canceled by user")) ∧
    (cancelGeneration cancelAlwaysOk 5 0 stateTwoActive).2.jobs =
      stateTwoActive.jobs.map (markCanceledIfIn
        (((stateTwoActive.activeJobs.map (fun p => p.2)).filter (fun j => j.batchId == 5)).map
          (fun j => j.predictionId))) ∧
    (cancelGeneration cancelAlwaysOk 5 0 stateTwoActive).2.activeJobs =
      stateTwoActive.activeJobs.filter (fun p =>
        !((((stateTwoActive.activeJobs.map (fun q => q.2)).filter (fun j => j.batchId == 5)).map
          (fun j => j.predictionId)).contains p.1)) :=
  C4_thm cancelAlwaysOk 5 0 stateTwoActive (by decide) (by decide)

set_option maxRecDepth 8000 in
/-- C5: when the remote status is `succeeded` but the ingestion collaborator
fails, the failure is only logged: the job's row keeps the recorded status
`succeeded`, no image row is stored, and the aggregator even finalises the
batch as `completed` — so the recorded terminal status after an ingestion
failure is `succeeded`, contradicting the claim that it is never
`succeeded`. -/
theorem C5_thm :
    (pollForCompletion statusSucceeded ingestFails "p9" 77 stateIngest).jobs.map
        (fun j => j.status) = [PredStatus.succeeded] ∧
    (pollForCompletion statusSucceeded ingestFails "p9" 77 stateIngest).images = [] ∧
    getBatch (pollForCompletion statusSucceeded ingestFails "p9" 77 stateIngest).batches 9 =
      some ⟨"a dog", 1, BatchStatus.completed, some 77, none⟩ := by decide

/-- C6 (amended): invoking the aggregator again after the batch is already
terminal re-derives the batch fields from the job rows: the repeated
invocation leaves the table exactly as a single invocation at the later time
would (absorption — so in particular `completed_at` is whatever the
recomputation writes: the new invocation time when the re-derived status is
`completed`, and null when it is `failed`, never the preserved old value),
and with the job rows unchanged the derived status and error message equal
the previous invocation's; a message written outside aggregation (such as the
cancellation message) is overwritten by the recomputed one. -/
theorem C6_thm (jobs : JobTable) (bid : Nat) (now1 now2 : Int) (db : BatchTable) (id' : Nat) :
    checkBatchCompletion jobs bid now2 (checkBatchCompletion jobs bid now1 db) =
      checkBatchCompletion jobs bid now2 db ∧
    (getBatch (checkBatchCompletion jobs bid now2 (checkBatchCompletion jobs bid now1 db)) id').map
        (fun b => (b.status, b.error_message)) =
      (getBatch (checkBatchCompletion jobs bid now1 db) id').map
        (fun b => (b.status, b.error_message)) := by
  have habs : checkBatchCompletion jobs bid now2 (checkBatchCompletion jobs bid now1 db) =
      checkBatchCompletion jobs bid now2 db := by
    simp only [checkBatchCompletion_spec]
    by_cases hA : ∀ j ∈ jobs, j.batchId = bid → isAggTerminal j.status = true
    · simp only [if_pos hA]
      by_cases hS : ∃ j ∈ jobs, j.batchId = bid ∧ j.status = PredStatus.succeeded
      · simp only [if_pos hS, updateBatchStatus_absorb]
      · simp only [if_neg hS, updateBatchStatus_absorb]
    · simp only [if_neg hA]
  refine ⟨habs, ?_⟩
  rw [habs]
  simp only [checkBatchCompletion_spec]
  by_cases hA : ∀ j ∈ jobs, j.batchId = bid → isAggTerminal j.status = true
  · simp only [if_pos hA]
    by_cases hS : ∃ j ∈ jobs, j.batchId = bid ∧ j.status = PredStatus.succeeded
    · simp only [if_pos hS, getBatch_updateBatchStatus]
      by_cases hid : id' = bid
      · simp only [if_pos hid]
        cases getBatch db id' <;> simp [updateBatchRow]
      · simp only [if_neg hid]
    · simp only [if_neg hS, getBatch_updateBatchStatus]
      by_cases hid : id' = bid
      · simp only [if_pos hid]
        cases getBatch db id' <;> simp [updateBatchRow]
      · simp only [if_neg hid]
  · simp only [if_neg hA]

/-- C6: counterexample to the claim as stated — batch 4 is already terminal
(`failed` with "Generation canceled by user", its two jobs `canceled` after a
user cancellation); invoking the aggregator callback again is not a no-op: it
rewrites the stored error message to "All image generations failed". -/
theorem C6_counterexample :
    getBatch exDbCanceled 4 =
      some ⟨"a bird", 2, BatchStatus.failed, none, some "Generation canceled by user"⟩ ∧
    (∀ j ∈ exJobsCanceled, isPollTerminal j.status = true) ∧
    getBatch (checkBatchCompletion exJobsCanceled 4 9 exDbCanceled) 4 =
      some ⟨"a bird", 2, BatchStatus.failed, none, some "All image generations failed"⟩ := by decide

/-- C7: startGeneration requires the batch to exist in `pending` status; for
a batch that is absent or in any other status it fails with the triggering
message ("Batch N not found" or "Batch N is not in pending state") and the
batch row, when present, is transitioned to `failed` carrying that message
(an absent batch has no row to transition, which the `Option.map` on the
right-hand side captures). -/
theorem C7_thm (submit : Nat → Except String String) (s : GenState) (bid : Nat) (now : Int)
    (h : ∀ b, getBatch s.batches bid = some b → b.status ≠ BatchStatus.pending) :
    (startGeneration submit bid now s).1 = Except.error (startTriggerMsg s.batches bid) ∧
    getBatch (startGeneration submit bid now s).2.1.batches bid =
      (getBatch s.batches bid).map
        (updateBatchRow now BatchStatus.failed (some (startTriggerMsg s.batches bid))) := by
  rcases hb : getBatch s.batches bid with _ | b
  · unfold startGeneration startTriggerMsg
    rw [hb]
    exact ⟨rfl, by rw [getBatch_updateBatchStatus, if_pos rfl, hb]⟩
  · have hnp := h b hb
    unfold startGeneration startTriggerMsg
    rw [hb]
    simp only [if_pos hnp]
    refine ⟨by trivial, ?_⟩
    rw [getBatch_updateBatchStatus, if_pos rfl, hb]

/-- C7: witness — startGeneration on batch 7 already `completed` fails with
the triggering message and the batch row moves to `failed` with it. -/
theorem C7_witness :
    (startGeneration submitFailsAt1 7 0 stateCompleted).1 =
      Except.error (startTriggerMsg stateCompleted.batches 7) ∧
    getBatch (startGeneration submitFailsAt1 7 0 stateCompleted).2.1.batches 7 =
      (getBatch stateCompleted.batches 7).map
        (updateBatchRow 0 BatchStatus.failed (some (startTriggerMsg stateCompleted.batches 7))) :=
  C7_thm submitFailsAt1 stateCompleted 7 0 (by decide)

/-- C8: a stored upload record is valid exactly when its expiry timestamp is
more than the 4-hour grace margin in the future, and resolve acts on it
accordingly: with more than 4 hours remaining it reuses the existing external
id without an upload call (`isExpired = false`), and otherwise it uploads
again and records the refresh (`isExpired = true`, one upload call). -/
theorem C8_thm (now : Int) (uplId : String) (uplExp : Option Int) (file : FileUpload)
    (st : RefStore) (r : RefImageRow) (u : UploadedRefRow) (e : Int)
    (hr : getReferenceImageByHash st (calculateFileHash file.buffer) = some r)
    (hu : getUploadedReferenceImage st r.id = some u)
    (he : u.replicate_expires_at = some e) :
    (isReplicateUploadValid now u.replicate_expires_at = true ↔
      4 * (1000 * 60 * 60) < e - now) ∧
    processReferenceImage now uplId uplExp file st =
      (if 4 * (1000 * 60 * 60) < e - now then
        (⟨r.id, getReplicateUrl u.replicate_file_id, false⟩, st, 0)
      else
        (⟨r.id, getReplicateUrl uplId, true⟩,
         createUploadedReferenceImage st r.id uplId uplExp, 1)) := by
  have hvalid : isReplicateUploadValid now u.replicate_expires_at
      = decide (4 * (1000 * 60 * 60) < e - now) := by
    rw [he, isReplicateUploadValid_some]
  constructor
  · rw [hvalid]
    exact decide_eq_true_iff
  · unfold processReferenceImage
    dsimp only
    rw [hr]
    dsimp only
    rw [hu]
    dsimp only
    rw [hvalid]
    by_cases hlt : 4 * (1000 * 60 * 60) < e - now
    · rw [decide_eq_true hlt, if_pos rfl, if_pos hlt]
    · rw [decide_eq_false hlt, if_neg hlt, if_neg]
      intro hfalse
      exact Bool.false_ne_true hfalse

/-- C8: witness — resolve on the store whose record expires 3 hours from now
refreshes (the else branch: upload count 1, `isExpired = true`), and on the
store whose record expires 5 hours from now reuses it (the then branch: no
upload, `isExpired = false`). -/
theorem C8_witness :
    ((isReplicateUploadValid 0 upl3h.replicate_expires_at = true ↔
        (4 : Int) * (1000 * 60 * 60) < 10800000 - 0) ∧
      processReferenceImage 0 "file-new" (some 86400000) fileA storeExpiring3h =
        (if (4 : Int) * (1000 * 60 * 60) < 10800000 - 0 then
          (⟨rowA.id, getReplicateUrl upl3h.replicate_file_id, false⟩, storeExpiring3h, 0)
        else
          (⟨rowA.id, getReplicateUrl "file-new", true⟩,
           createUploadedReferenceImage storeExpiring3h rowA.id "file-new" (some 86400000), 1))) ∧
    ((isReplicateUploadValid 0 upl5h.replicate_expires_at = true ↔
        (4 : Int) * (1000 * 60 * 60) < 18000000 - 0) ∧
      processReferenceImage 0 "file-new" (some 86400000) fileA storeExpiring5h =
        (if (4 : Int) * (1000 * 60 * 60) < 18000000 - 0 then
          (⟨rowA.id, getReplicateUrl upl5h.replicate_file_id, false⟩, storeExpiring5h, 0)
        else
          (⟨rowA.id, getReplicateUrl "file-new", true⟩,
           createUploadedReferenceImage storeExpiring5h rowA.id "file-new" (some 86400000), 1))) :=
  ⟨C8_thm 0 "file-new" (some 86400000) fileA storeExpiring3h rowA upl3h 10800000
      (by decide) (by decide) rfl,
   C8_thm 0 "file-new" (some 86400000) fileA storeExpiring5h rowA upl5h 18000000
      (by decide) (by decide) rfl⟩

/-- C9 (amended): resolve has no single-flight serialisation, so only
sequential resolutions deduplicate the external upload: a resolve that starts
after a same-hash resolve has completed — the completed call's recorded
expiry still beyond the grace margin — issues no upload call, leaves the
store unchanged, and returns the same reference image id and URL with
`isExpired = false`. -/
theorem C9_thm (now : Int) (uplId1 uplId2 : String) (e1 : Int) (uplExp2 : Option Int)
    (file : FileUpload) (st : RefStore)
    (hval : 4 * (1000 * 60 * 60) < e1 - now) :
    (processReferenceImage now uplId2 uplExp2 file
        (processReferenceImage now uplId1 (some e1) file st).2.1).2.2 = 0 ∧
    (processReferenceImage now uplId2 uplExp2 file
        (processReferenceImage now uplId1 (some e1) file st).2.1).2.1 =
      (processReferenceImage now uplId1 (some e1) file st).2.1 ∧
    (processReferenceImage now uplId2 uplExp2 file
        (processReferenceImage now uplId1 (some e1) file st).2.1).1 =
      ⟨(processReferenceImage now uplId1 (some e1) file st).1.referenceImageId,
       (processReferenceImage now uplId1 (some e1) file st).1.replicateUrl, false⟩ := by
  obtain ⟨r', u', h1, h2, h3, h4, h5⟩ := processRef_second_ready now uplId1 e1 file st hval
  rw [processRef_reuse now uplId2 uplExp2 file _ r' u' h1 h2 h3]
  refine ⟨rfl, rfl, ?_⟩
  dsimp only
  rw [h4, h5]

/-- C9: counterexample to the claim as stated — two concurrent resolve calls
for the same content (same hash), interleaved so that both run their
upload-record check before either records its upload, issue two external
upload calls instead of exactly one; both finish with the same reference
image id, the later record winning. -/
theorem C9_counterexample :
    (runSchedule 0 "f1" "f2" (some 86400000) fileA overlappedSchedule
      (ResolveThread.notStarted, ResolveThread.notStarted) storeEmpty 0).2.2 = 2 ∧
    (runSchedule 0 "f1" "f2" (some 86400000) fileA overlappedSchedule
      (ResolveThread.notStarted, ResolveThread.notStarted) storeEmpty 0).1.1 =
      ResolveThread.done ⟨1, getReplicateUrl "f1", false⟩ ∧
    (runSchedule 0 "f1" "f2" (some 86400000) fileA overlappedSchedule
      (ResolveThread.notStarted, ResolveThread.notStarted) storeEmpty 0).1.2 =
      ResolveThread.done ⟨1, getReplicateUrl "f2", false⟩ := by decide

/-- C9: witness — a second resolve of the same file, run after the first
completed with a 24-hour expiry, issues no upload call and returns the first
call's reference image id and URL. -/
theorem C9_witness :
    (processReferenceImage 0 "f2" (some 90000000) fileA
        (processReferenceImage 0 "f1" (some 86400000) fileA storeEmpty).2.1).2.2 = 0 ∧
    (processReferenceImage 0 "f2" (some 90000000) fileA
        (processReferenceImage 0 "f1" (some 86400000) fileA storeEmpty).2.1).2.1 =
      (processReferenceImage 0 "f1" (some 86400000) fileA storeEmpty).2.1 ∧
    (processReferenceImage 0 "f2" (some 90000000) fileA
        (processReferenceImage 0 "f1" (some 86400000) fileA storeEmpty).2.1).1 =
      ⟨(processReferenceImage 0 "f1" (some 86400000) fileA storeEmpty).1.referenceImageId,
       (processReferenceImage 0 "f1" (some 86400000) fileA storeEmpty).1.replicateUrl, false⟩ :=
  C9_thm 0 "f1" "f2" 86400000 (some 90000000) fileA storeEmpty (by decide)

/-- C10 (amended): every batch status update overwrites `completed_at` and
`error_message` unconditionally — the written values do not depend on the
prior row: `completed_at` becomes the current time exactly when the new
status is `completed` and null otherwise, and `error_message` becomes the
supplied message when it is non-empty and null when none is supplied or the
supplied message is the empty string (JS `||` falsiness); rows with other ids
are untouched. -/
theorem C10_thm (db : BatchTable) (id id' : Nat) (now : Int) (st : BatchStatus)
    (msg : Option String) :
    getBatch (updateBatchStatus db id now st msg) id' =
      if id' = id then
        (getBatch db id').map (fun b =>
          { b with
            status := st
            completed_at := if st = BatchStatus.completed then some now else none
            error_message := if msg = none ∨ msg = some "" then none else msg })
      else getBatch db id' := by
  rw [getBatch_updateBatchStatus]
  by_cases hid : id' = id
  · rw [if_pos hid, if_pos hid]
    cases getBatch db id' with
    | none => rfl
    | some b =>
      rcases msg with _ | m
      · simp [updateBatchRow]
      · by_cases hm : m = ""
        · subst hm
          simp [updateBatchRow]
        · simp [updateBatchRow, hm]
  · rw [if_neg hid, if_neg hid]

/-- C10: counterexample to the claim as stated — updating batch 3 to `failed`
with the supplied (empty) message stores null, not the supplied message: the
JS `errorMessage || null` treats the empty string as absent. -/
theorem C10_counterexample :
    getBatch (updateBatchStatus
        [(3, ⟨"a cow", 1, BatchStatus.processing, some 11, some "old"⟩)]
        3 99 BatchStatus.failed (some "")) 3
      = some ⟨"a cow", 1, BatchStatus.failed, none, none⟩ ∧
    (some "" : Option String) ≠ none := by decide

end NanoBanana
